import Mathlib

/-!
Verification development for the if-this-then-ad repository.

The repository's core is the conversion-value-rule (CVR) reconciliation
engine (`src/src/dao/campaign_cvr.ts`), its HTTP transport with a
per-instance response cache (`src/src/dao/google_ads_client.ts`), and the
Google Ads target-agent facade (the unnamed source file defining the
`GoogleAds` class: `process`, `handleToggle`,
`handleManageConversionRule`, `validate`).

Remarks on the embedding:

* The repository snapshot of `campaign_cvr.ts` and of the facade file
  contains unresolved git merge-conflict markers.  The definitions below
  follow the side of the newest revision in the snapshot (commit
  `7798efe` for the engine, which skips the rule update when the stored
  value equals the requested weight, and the clamping side for the
  facade), which is the only side consistent with the rest of the
  snapshot; divergences of the other side are noted in comments.

* JavaScript numbers are modelled as exact rationals (`ℚ`); the claims
  under study only compare, clamp and add 1 to them.

* The remote Google Ads platform is not part of the repository; it is
  modelled as explicit state (`Remote`): queries filter that state the
  way the GAQL `WHERE` clauses written in the source do, mutations
  append or update entries and hand back resource names.  A response
  with zero rows has no `results` field, which the model renders as an
  empty row list (both are falsy / empty in the places the source tests
  them).  The flag `ruleSetCreateFails` lets the modelled platform
  reject a rule-set create with an empty `results` field, the situation
  the source's `createConversionValueRuleSet` tests for explicitly.

* Thrown JavaScript exceptions are modelled with `Except JsError`;
  `JsError.typeError` stands for a `TypeError` raised by reading a
  property of `undefined` (it carries no message naming any resource),
  `JsError.error msg` for an explicitly thrown `new Error(msg)`.
-/

namespace IfThisThenAd

/-- Error model: a JavaScript `TypeError` from touching `undefined`
(no resource-naming message), or an explicitly thrown `Error` with a
message. -/
inductive JsError where
  | typeError : JsError
  | error (msg : String) : JsError
deriving DecidableEq, Repr

/-- The message of a thrown error; a `TypeError` of the kind modelled
here carries no caller-chosen message. -/
def JsError.message : JsError → Option String
  | .typeError => none
  | .error msg => some msg

/-- Whether an error's message names the given resource (the resource
string occurs in the message). -/
def JsError.names (e : JsError) (resource : String) : Bool :=
  match e.message with
  | none => false
  | some msg => decide (List.IsInfix resource.toList msg.toList)

/-! ### Remote platform state (model of the Google Ads backend) -/

/-- A geo target constant row (`geo_target_constant`). -/
structure GeoTarget where
  resourceName : String
  name : String
  targetType : String
deriving DecidableEq, Repr

/-- A conversion value rule (`conversion_value_rule`): its resource
name, its `action.value` multiplier and its
`geoLocationCondition.geoTargetConstants` list. -/
structure Cvr where
  resourceName : String
  value : ℚ
  geoTargetConstants : List String
deriving DecidableEq, Repr

/-- A conversion value rule set (`conversion_value_rule_set`): resource
name, owning campaign, and member rule resource names. -/
structure RuleSet where
  resourceName : String
  campaign : String
  conversionValueRules : List String
deriving DecidableEq, Repr

/-- The remote platform state visible to the engine.  `nextId` feeds the
fresh resource names handed back by creates; `ruleSetCreateFails` makes
the platform answer a rule-set create with an empty `results` list. -/
structure Remote where
  geoTargets : List GeoTarget
  cvrs : List Cvr
  ruleSets : List RuleSet
  nextId : Nat
  ruleSetCreateFails : Bool
deriving DecidableEq, Repr

/-! ### Requests issued by the engine

Every call the engine makes goes through
`GoogleAdsApiClient.makeApiCall(path, 'POST', payload, forceCache?)`.
A `Req` stands for one such request: the pair of URL and serialized
parameters (which the transport uses as its cache key) is in bijection
with the constructor and its arguments, since each constructor fixes the
path and the payload template.  The `forceCache` argument is NOT part of
the serialized parameters, hence not part of a `Req`. -/
inductive Req where
  | geoQuery (customerId locationName : String)
  | ruleSetQuery (customerId campaignResourceName : String)
  | cvrQuery (customerId cvrResourceName : String)
  | cvrCreate (customerId geoTargetResource : String) (value : ℚ)
  | cvrUpdate (customerId resourceName : String) (value : ℚ)
  | ruleSetCreate (customerId campaignResourceName : String) (rules : List String)
  | ruleSetUpdate (customerId resourceName : String) (rules : List String)
deriving DecidableEq, Repr

/-- Whether a request is a `:mutate` call (a rule or rule-set creation
or update), as opposed to a `googleAds:search` read. -/
def Req.isMutation : Req → Bool
  | .cvrCreate _ _ _ => true
  | .cvrUpdate _ _ _ => true
  | .ruleSetCreate _ _ _ => true
  | .ruleSetUpdate _ _ _ => true
  | _ => false

/-- Equality of the transport cache keys of two requests.  The transport
keys its cache by `url ++ "-" ++ JSON.stringify(params)`; two requests
serialize to the same key exactly when they are the same request.  This
Bool-valued comparison is written out structurally so that it reduces
by cases on the constructors. -/
def Req.keyEq : Req → Req → Bool
  | .geoQuery c n, .geoQuery c' n' => decide (c = c') && decide (n = n')
  | .ruleSetQuery c n, .ruleSetQuery c' n' => decide (c = c') && decide (n = n')
  | .cvrQuery c n, .cvrQuery c' n' => decide (c = c') && decide (n = n')
  | .cvrCreate c g v, .cvrCreate c' g' v' =>
      decide (c = c') && decide (g = g') && decide (v = v')
  | .cvrUpdate c n v, .cvrUpdate c' n' v' =>
      decide (c = c') && decide (n = n') && decide (v = v')
  | .ruleSetCreate c n rs, .ruleSetCreate c' n' rs' =>
      decide (c = c') && decide (n = n') && decide (rs = rs')
  | .ruleSetUpdate c n rs, .ruleSetUpdate c' n' rs' =>
      decide (c = c') && decide (n = n') && decide (rs = rs')
  | _, _ => false

/-- Responses of the modelled platform.  `geoRows` carries the matching
geo target resource names, `ruleSetRows` the matching rule-set rows,
`cvrRows` the matching rule rows; `mutated` carries
`results[0]?.resourceName` of a mutate response (`none` models a
response whose `results` list is missing or empty). -/
inductive Resp where
  | geoRows (rows : List String)
  | ruleSetRows (rows : List RuleSet)
  | cvrRows (rows : List Cvr)
  | mutated (resourceName : Option String)
deriving DecidableEq, Repr

/-- Fresh resource name for a created conversion value rule. -/
def cvrResourceName (customerId : String) (n : Nat) : String :=
  "customers/" ++ customerId ++ "/conversionValueRules/" ++ Nat.repr n

/-- Fresh resource name for a created conversion value rule set. -/
def ruleSetResourceName (customerId : String) (n : Nat) : String :=
  "customers/" ++ customerId ++ "/conversionValueRuleSets/" ++ Nat.repr n

/-- One request executed against the remote platform.  Queries filter
the remote state by the `WHERE` clause the source builds; mutations
update it and answer with the affected resource name. -/
def execRemote (req : Req) (r : Remote) : Resp × Remote :=
  match req with
  | .geoQuery _ locationName =>
      (Resp.geoRows (((r.geoTargets.filter
          (fun g => decide (g.targetType = "City") && decide (g.name = locationName)))).map
          (fun g => g.resourceName)), r)
  | .ruleSetQuery _ campaignResourceName =>
      (Resp.ruleSetRows (r.ruleSets.filter
          (fun rs => decide (rs.campaign = campaignResourceName))), r)
  | .cvrQuery _ cvrName =>
      (Resp.cvrRows (r.cvrs.filter (fun c => decide (c.resourceName = cvrName))), r)
  | .cvrCreate customerId geoTargetResource value =>
      let name := cvrResourceName customerId r.nextId
      (Resp.mutated (some name),
        { r with cvrs := r.cvrs ++ [⟨name, value, [geoTargetResource]⟩],
                 nextId := r.nextId + 1 })
  | .cvrUpdate _ name value =>
      (Resp.mutated (some name),
        { r with cvrs := (r.cvrs.map
            (fun c => if c.resourceName = name then { c with value := value } else c)) })
  | .ruleSetCreate customerId campaignResourceName rules =>
      if r.ruleSetCreateFails then
        (Resp.mutated none, r)
      else
        let name := ruleSetResourceName customerId r.nextId
        (Resp.mutated (some name),
          { r with ruleSets := r.ruleSets ++ [⟨name, campaignResourceName, rules⟩],
                   nextId := r.nextId + 1 })
  | .ruleSetUpdate _ name rules =>
      (Resp.mutated (some name),
        { r with ruleSets := (r.ruleSets.map
            (fun rs => if rs.resourceName = name then
                { rs with conversionValueRules := rules } else rs)) })

/-- State of one `GoogleAdsApiClient` instance talking to the remote
platform: the remote state, the instance's response cache, and the log
of requests actually sent over the network (cache hits are not
appended). -/
structure ClientState where
  remote : Remote
  cache : List (Req × Resp)
  trace : List Req
deriving DecidableEq, Repr

/-- Cache lookup (`cacheKey in this.cache && this.cache[cacheKey]`);
cached values are parsed JSON objects and therefore always truthy. -/
def findCached (cache : List (Req × Resp)) (req : Req) : Option Resp :=
  match cache.find? (fun e => Req.keyEq e.1 req) with
  | some e => some e.2
  | none => none

/-- Number of mutation requests sent so far. -/
def mutationCount (s : ClientState) : Nat :=
  (s.trace.filter Req.isMutation).length

/-- Engine computations: state over `ClientState` with JavaScript
exceptions.  An exception does not roll back state already changed. -/
def EngineM (α : Type) : Type := ClientState → Except JsError α × ClientState

/-- Return (no state change, no exception). -/
def EngineM.pure {α : Type} (a : α) : EngineM α := fun s => (Except.ok a, s)

/-- Sequencing; an exception short-circuits but keeps the state reached
so far. -/
def EngineM.bind {α β : Type} (m : EngineM α) (f : α → EngineM β) : EngineM β :=
  fun s =>
    match m s with
    | (Except.ok a, s') => f a s'
    | (Except.error e, s') => (Except.error e, s')

/-- Throw a JavaScript exception. -/
def EngineM.throw {α : Type} (e : JsError) : EngineM α := fun s => (Except.error e, s)

/-- `GoogleAdsApiClient.makeApiCall(path, 'POST', payload, forceCache)`,
specialised to the engine's requests (the engine only issues POSTs, so
the `method.toLowerCase() === 'get'` half of the transport's caching
condition is always false and a response is cached iff `forceCache`).
A cache hit is served without touching the network; a miss executes
against the remote, appends to the network trace, and stores the
response when `forceCache` is set. -/
def makeApiCall (req : Req) (forceCache : Bool) : EngineM Resp := fun s =>
  match findCached s.cache req with
  | some resp => (Except.ok resp, s)
  | none =>
      let (resp, remote') := execRemote req s.remote
      (Except.ok resp,
        { remote := remote',
          cache := if forceCache then s.cache ++ [(req, resp)] else s.cache,
          trace := s.trace ++ [req] })

/-- `getGeoTargetByName` of `GoogleAdsApiCampaignDaoImpl`: geo target
query with `forceCache = true`, then `res.results[0].geoTargetConstant
.resourceName` — with zero rows, `res.results` is `undefined` and the
indexing raises a `TypeError` (no message naming the geo). -/
def getGeoTargetByName (customerId locationName : String) : EngineM String :=
  EngineM.bind (makeApiCall (Req.geoQuery customerId locationName) true) fun resp =>
    match resp with
    | Resp.geoRows rows =>
        match rows.head? with
        | some resourceName => EngineM.pure resourceName
        | none => EngineM.throw JsError.typeError
    | _ => EngineM.throw JsError.typeError

/-- `getConversionValueRuleSetForCampaign`: rule-set query with
`forceCache = true`; returns `res.results` (the matching rows). -/
def getConversionValueRuleSetForCampaign (customerId campaignResourceName : String) :
    EngineM (List RuleSet) :=
  EngineM.bind (makeApiCall (Req.ruleSetQuery customerId campaignResourceName) true)
    fun resp =>
      match resp with
      | Resp.ruleSetRows rows => EngineM.pure rows
      | _ => EngineM.throw JsError.typeError

/-- `getConversionValueRule` (revision `7798efe`): rule query with
`forceCache = true`; throws `ConversionValueRule <name> not found` when
`res.results` is missing or empty, else returns the first row. -/
def getConversionValueRule (customerId cvrName : String) : EngineM Cvr :=
  EngineM.bind (makeApiCall (Req.cvrQuery customerId cvrName) true) fun resp =>
    match resp with
    | Resp.cvrRows rows =>
        match rows.head? with
        | some cvr => EngineM.pure cvr
        | none =>
            EngineM.throw (JsError.error
              ("ConversionValueRule " ++ cvrName ++ " not found"))
    | _ => EngineM.throw JsError.typeError

/-- `createConversionValueRule`: mutate call without `forceCache`;
returns `res.results[0]?.resourceName`.  The modelled platform always
answers a rule create with a resource name, so the `none` branch is
unreachable. -/
def createConversionValueRule (customerId geoTargetResource : String) (value : ℚ) :
    EngineM String :=
  EngineM.bind (makeApiCall (Req.cvrCreate customerId geoTargetResource value) false)
    fun resp =>
      match resp with
      | Resp.mutated (some name) => EngineM.pure name
      | _ => EngineM.throw JsError.typeError

/-- `updateConversionValueRule`: mutate call without `forceCache`
(update mask `action.value`); returns the updated resource name. -/
def updateConversionValueRule (customerId resourceName : String) (value : ℚ) :
    EngineM String :=
  EngineM.bind (makeApiCall (Req.cvrUpdate customerId resourceName value) false)
    fun resp =>
      match resp with
      | Resp.mutated (some name) => EngineM.pure name
      | _ => EngineM.throw JsError.typeError

/-- `createConversionValueRuleSet`: mutate call, issued with
`forceCache = true` in the source; when the response has no non-empty
`results` list it throws `Failed to create ConversionValueRuleSet.`. -/
def createConversionValueRuleSet (customerId campaignResourceName : String)
    (rules : List String) : EngineM String :=
  EngineM.bind
    (makeApiCall (Req.ruleSetCreate customerId campaignResourceName rules) true)
    fun resp =>
      match resp with
      | Resp.mutated (some name) => EngineM.pure name
      | Resp.mutated none =>
          EngineM.throw (JsError.error "Failed to create ConversionValueRuleSet.")
      | _ => EngineM.throw JsError.typeError

/-- `updateConversionValueRuleSet`: mutate call without `forceCache`;
the payload carries the FULL replacement list of member rule resource
names (update mask `conversion_value_rules`). -/
def updateConversionValueRuleSet (customerId ruleSetName : String)
    (rules : List String) : EngineM String :=
  EngineM.bind (makeApiCall (Req.ruleSetUpdate customerId ruleSetName rules) false)
    fun resp =>
      match resp with
      | Resp.mutated (some name) => EngineM.pure name
      | _ => EngineM.throw JsError.typeError

/-- The member-scanning loop of `persistCvrForCampaigns` (revision
`7798efe`): walk the rule-set members in order, fetch each rule, read
its first geo target constant (`geoTargetConstants[0]`; an empty list
gives `undefined`, which never equals the geo resource) and its value,
and stop at the first member whose geo equals the target
(`cvrForGeoExists`/`cvrForGeoResourceName`/`ruleValue` at the break). -/
def findCvrForGeo (customerId geoTargetResource : String) :
    List String → EngineM (Option (String × ℚ))
  | [] => EngineM.pure none
  | cvrName :: rest =>
      EngineM.bind (getConversionValueRule customerId cvrName) fun currentCvr =>
        if currentCvr.geoTargetConstants.head? = some geoTargetResource then
          EngineM.pure (some (cvrName, currentCvr.value))
        else
          findCvrForGeo customerId geoTargetResource rest

/-- The body of `persistCvrForCampaigns`' `forEach` for a single
campaign (revision `7798efe`): fetch the campaign's rule-set; if one
exists, scan its members for the geo — on a match update the rule only
when its stored value differs from the requested weight, otherwise log
and skip; with no matching member create a rule and send the rule-set
update with the existing members plus the new rule.  With no rule-set,
create a rule and then a rule-set referencing only it. -/
def processCampaign (customerId geoTargetResource : String) (conversionWeight : ℚ)
    (campaignResourceName : String) : EngineM Unit :=
  EngineM.bind (getConversionValueRuleSetForCampaign customerId campaignResourceName)
    fun existingRuleSet =>
      match existingRuleSet.head? with
      | some conversionValueRuleSet =>
          let existingRules := conversionValueRuleSet.conversionValueRules
          EngineM.bind (findCvrForGeo customerId geoTargetResource existingRules)
            fun found =>
              match found with
              | some (cvrForGeoResourceName, ruleValue) =>
                  if ruleValue ≠ conversionWeight then
                    EngineM.bind
                      (updateConversionValueRule customerId cvrForGeoResourceName
                        conversionWeight)
                      (fun _ => EngineM.pure ())
                  else
                    EngineM.pure ()
              | none =>
                  EngineM.bind
                    (createConversionValueRule customerId geoTargetResource
                      conversionWeight)
                    fun newCvr =>
                      EngineM.bind
                        (updateConversionValueRuleSet customerId
                          conversionValueRuleSet.resourceName
                          (existingRules ++ [newCvr]))
                        (fun _ => EngineM.pure ())
      | none =>
          EngineM.bind
            (createConversionValueRule customerId geoTargetResource conversionWeight)
            fun newCvr =>
              EngineM.bind
                (createConversionValueRuleSet customerId campaignResourceName [newCvr])
                (fun _ => EngineM.pure ())

/-- The `forEach` over the campaign batch: campaigns are processed in
order; an exception thrown while processing one campaign propagates out
of the loop, so the remaining campaigns are not processed. -/
def processCampaigns (customerId geoTargetResource : String) (conversionWeight : ℚ) :
    List String → EngineM Unit
  | [] => EngineM.pure ()
  | campaign :: rest =>
      EngineM.bind (processCampaign customerId geoTargetResource conversionWeight campaign)
        (fun _ => processCampaigns customerId geoTargetResource conversionWeight rest)

/-- `persistCvrForCampaigns` of `GoogleAdsApiCampaignDaoImpl`: resolve
the geo target (outside the `try`, so its errors propagate), then run
the per-campaign loop inside `try { ... } catch (error) {
console.error(...) }` — an exception from the loop is caught and only
logged, so the call returns normally; state already changed (mutations
already issued, cache entries added) is kept. -/
def persistCvrForCampaigns (customerId : String) (campaignResourceNames : List String)
    (conversionWeight : ℚ) (geoTargetName : String) :
    ClientState → Except JsError Unit × ClientState := fun s =>
  match getGeoTargetByName customerId geoTargetName s with
  | (Except.error e, s1) => (Except.error e, s1)
  | (Except.ok geoTargetResource, s1) =>
      match processCampaigns customerId geoTargetResource conversionWeight
          campaignResourceNames s1 with
      | (Except.ok _, s2) => (Except.ok (), s2)
      | (Except.error _, s2) => (Except.ok (), s2)

/-! ### Target agent facade (`GoogleAds` class)

The facade resolves identifiers into entities via `googleAds:search`
queries, toggles entity status, and delegates CVR management to a
`CampaignDao`.  Its transport (`callApi`, inherited from the
`TargetAgent` base class, which is not part of the snapshot) is modelled
from the spec as: each read or mutation issues one request, recorded in
an observable call list; the authentication provider is a boundary
collaborator whose token acquisition is not an Ads API network call.
`Option` results model the `results` field of a search response:
`none` is a zero-row response without a `results` field (touching it
with `.map` raises a `TypeError`). -/

/-- Character-list core of `String.prototype.split` with a
single-character separator: split at every occurrence, keeping empty
pieces (`''.split(x)` is `['']`). -/
def splitChars (sep : Char) : List Char → List (List Char)
  | [] => [[]]
  | c :: rest =>
      match splitChars sep rest with
      | h :: t => if c = sep then [] :: h :: t else (c :: h) :: t
      | [] => if c = sep then [[], []] else [[c]]

/-- JavaScript's `identifier.split(sep)` for the single-character
separators (`';'`, `','`) used by the facade. -/
def jsSplit (s : String) (sep : Char) : List String :=
  (splitChars sep s.toList).map List.asString

/-- `GOOGLE_ADS_SELECTOR_TYPE`. -/
inductive SelectorType where
  | AD_ID | AD_LABEL | AD_GROUP_ID | AD_GROUP_LABEL | CAMPAIGN_LABEL | CAMPAIGN_ID
deriving DecidableEq, Repr

/-- `GOOGLE_ADS_ENTITY_STATUS`. -/
inductive EntityStatus where
  | ENABLED | PAUSED
deriving DecidableEq, Repr

/-- The string value of an entity status (enum values are their names). -/
def EntityStatus.str : EntityStatus → String
  | .ENABLED => "ENABLED"
  | .PAUSED => "PAUSED"

/-- The string value of a selector type (enum values are their names). -/
def SelectorType.str : SelectorType → String
  | .AD_ID => "AD_ID"
  | .AD_LABEL => "AD_LABEL"
  | .AD_GROUP_ID => "AD_GROUP_ID"
  | .AD_GROUP_LABEL => "AD_GROUP_LABEL"
  | .CAMPAIGN_LABEL => "CAMPAIGN_LABEL"
  | .CAMPAIGN_ID => "CAMPAIGN_ID"

/-- `GOOGLE_ADS_ACTION`. -/
inductive AdsAction where
  | TOGGLE | MANAGE_CONV_VALUE_RULE
deriving DecidableEq, Repr

/-- An entity as the facade maps query rows: resource name plus status. -/
structure Entity where
  resourceName : String
  status : EntityStatus
deriving DecidableEq, Repr

/-- The facade's `Parameters` interface.  `customerId` and
`developerToken` are the required parameters checked by
`ensureRequiredParameters`; in this typed model they are always
present.  `geo` and `conversionWeight` are optional. -/
structure Parameters where
  customerId : String
  developerToken : String
  loginCustomerId : Option String := none
  geo : Option String := none
  conversionWeight : Option ℚ := none

/-- Observable calls the facade makes: search queries (identified by the
data that determines the GAQL query string), status mutations, and the
two `CampaignDao` entry points. -/
inductive FacadeCall where
  | adsByIdQuery (customerId : String) (ids : List String)
  | adGroupsByIdQuery (customerId : String) (ids : List String)
  | campaignsByIdQuery (customerId : String) (ids : List String)
  | adLabelQuery (customerId labelName : String)
  | adGroupLabelQuery (customerId labelName : String)
  | adsByLabelQuery (customerId labelResource : String)
  | adGroupsByLabelQuery (customerId labelResource : String)
  | campaignsByLabelQuery (customerId labelName : String)
  | statusMutate (path resourceName : String) (status : EntityStatus)
  | daoDisableAll (campaigns : List String)
  | daoPersistCvr (campaigns : List String) (conversionWeight : ℚ) (geo : String)
deriving DecidableEq, Repr

/-- Whether a facade call goes over the network (the DAO used by the
facade in this snapshot is `EmptyCampaignDaoImpl`, which only logs). -/
def FacadeCall.isNetwork : FacadeCall → Bool
  | .daoDisableAll _ => false
  | .daoPersistCvr _ _ _ => false
  | _ => true

/-- Responses of the modelled platform to the facade's queries; a
function per query family.  `none` models a zero-row response (missing
`results` field), `some rows` a response with rows. -/
structure FacadeEnv where
  adsById : List String → Option (List Entity)
  adGroupsById : List String → Option (List Entity)
  campaignsById : List String → Option (List Entity)
  adLabelRows : String → Option (List String)
  adGroupLabelRows : String → Option (List String)
  adsByLabel : String → Option (List Entity)
  adGroupsByLabel : String → Option (List Entity)
  campaignsByLabel : String → Option (List Entity)

/-- Facade computations: a read-only environment, an accumulated call
list, and JavaScript exceptions (which keep the calls made so far). -/
def FacadeM (α : Type) : Type :=
  FacadeEnv → List FacadeCall → Except JsError α × List FacadeCall

/-- Return. -/
def FacadeM.pure {α : Type} (a : α) : FacadeM α := fun _ tr => (Except.ok a, tr)

/-- Sequencing; an exception short-circuits but keeps the call list. -/
def FacadeM.bind {α β : Type} (m : FacadeM α) (f : α → FacadeM β) : FacadeM β :=
  fun env tr =>
    match m env tr with
    | (Except.ok a, tr') => f a env tr'
    | (Except.error e, tr') => (Except.error e, tr')

/-- Throw a JavaScript exception. -/
def FacadeM.throw {α : Type} (e : JsError) : FacadeM α := fun _ tr => (Except.error e, tr)

/-- Record one call. -/
def FacadeM.emit (c : FacadeCall) : FacadeM Unit := fun _ tr => (Except.ok (), tr ++ [c])

/-- `getAdsById`: search for `ad_group_ad` rows whose ad id is in
`ids`, then `res.results.map(...)` — a missing `results` field raises a
`TypeError`. -/
def getAdsById (customerId : String) (ids : List String) : FacadeM (List Entity) :=
  FacadeM.bind (FacadeM.emit (FacadeCall.adsByIdQuery customerId ids))
    fun _ => fun env tr =>
      match env.adsById ids with
      | some rows => (Except.ok rows, tr)
      | none => (Except.error JsError.typeError, tr)

/-- `getAdGroupsById`: like `getAdsById` for `ad_group` rows. -/
def getAdGroupsById (customerId : String) (ids : List String) : FacadeM (List Entity) :=
  FacadeM.bind (FacadeM.emit (FacadeCall.adGroupsByIdQuery customerId ids))
    fun _ => fun env tr =>
      match env.adGroupsById ids with
      | some rows => (Except.ok rows, tr)
      | none => (Except.error JsError.typeError, tr)

/-- `getCampaingsById` (source spelling): campaign query by id list via
`getEntitiesByQuery`, whose `res.results.map(...)` raises a `TypeError`
on a zero-row response. -/
def getCampaingsById (customerId : String) (ids : List String) : FacadeM (List Entity) :=
  FacadeM.bind (FacadeM.emit (FacadeCall.campaignsByIdQuery customerId ids))
    fun _ => fun env tr =>
      match env.campaignsById ids with
      | some rows => (Except.ok rows, tr)
      | none => (Except.error JsError.typeError, tr)

/-- `getAdLabelByName`: label query by name; the source checks
`!(res.results && res.results.length)` and throws
`Label <name> not found` on a missing or empty row list; otherwise the
first row's label resource name is returned (first match wins). -/
def getAdLabelByName (customerId labelName : String) : FacadeM String :=
  FacadeM.bind (FacadeM.emit (FacadeCall.adLabelQuery customerId labelName))
    fun _ => fun env tr =>
      match env.adLabelRows labelName with
      | some (labelResource :: _) => (Except.ok labelResource, tr)
      | some [] => (Except.error (JsError.error ("Label " ++ labelName ++ " not found")), tr)
      | none => (Except.error (JsError.error ("Label " ++ labelName ++ " not found")), tr)

/-- `getAdGroupLabelByName`: like `getAdLabelByName` for ad-group
labels. -/
def getAdGroupLabelByName (customerId labelName : String) : FacadeM String :=
  FacadeM.bind (FacadeM.emit (FacadeCall.adGroupLabelQuery customerId labelName))
    fun _ => fun env tr =>
      match env.adGroupLabelRows labelName with
      | some (labelResource :: _) => (Except.ok labelResource, tr)
      | some [] => (Except.error (JsError.error ("Label " ++ labelName ++ " not found")), tr)
      | none => (Except.error (JsError.error ("Label " ++ labelName ++ " not found")), tr)

/-- `getAdsByLabel`: resolve the label name to its resource, then query
ads whose label set contains it. -/
def getAdsByLabel (customerId label : String) : FacadeM (List Entity) :=
  FacadeM.bind (getAdLabelByName customerId label) fun labelResource =>
    FacadeM.bind (FacadeM.emit (FacadeCall.adsByLabelQuery customerId labelResource))
      fun _ => fun env tr =>
        match env.adsByLabel labelResource with
        | some rows => (Except.ok rows, tr)
        | none => (Except.error JsError.typeError, tr)

/-- `getAdGroupsByLabel`: resolve the ad-group label name, then query
ad groups carrying it. -/
def getAdGroupsByLabel (customerId label : String) : FacadeM (List Entity) :=
  FacadeM.bind (getAdGroupLabelByName customerId label) fun labelResource =>
    FacadeM.bind (FacadeM.emit (FacadeCall.adGroupsByLabelQuery customerId labelResource))
      fun _ => fun env tr =>
        match env.adGroupsByLabel labelResource with
        | some rows => (Except.ok rows, tr)
        | none => (Except.error JsError.typeError, tr)

/-- `getCampaignsByLabel`: a SINGLE query over `campaign_label` filtered
by `label.name` via `getEntitiesByQuery` — there is no separate label
resolution step, so a zero-row response raises a `TypeError` from
`res.results.map(...)` rather than a label-not-found error. -/
def getCampaignsByLabel (customerId label : String) : FacadeM (List Entity) :=
  FacadeM.bind (FacadeM.emit (FacadeCall.campaignsByLabelQuery customerId label))
    fun _ => fun env tr =>
      match env.campaignsByLabel label with
      | some rows => (Except.ok rows, tr)
      | none => (Except.error JsError.typeError, tr)

/-- `updateEntityStatus`: one `:mutate` POST with update mask `status`. -/
def updateEntityStatus (path : String) (entity : Entity) (status : EntityStatus) :
    FacadeM Unit :=
  FacadeM.emit (FacadeCall.statusMutate path entity.resourceName status)

/-- The `for` loops of the `update*Status*` helpers: one status
mutation per resolved entity, in order. -/
def updateStatuses (path : String) (status : EntityStatus) :
    List Entity → FacadeM Unit
  | [] => FacadeM.pure ()
  | e :: rest =>
      FacadeM.bind (updateEntityStatus path e status)
        (fun _ => updateStatuses path status rest)

/-- `updateAdStatusById`. -/
def updateAdStatusById (customerId : String) (ids : List String)
    (status : EntityStatus) : FacadeM Unit :=
  FacadeM.bind (getAdsById customerId ids) fun ads =>
    updateStatuses ("customers/" ++ customerId ++ "/adGroupAds:mutate") status ads

/-- `updateAdGroupStatusById`. -/
def updateAdGroupStatusById (customerId : String) (ids : List String)
    (status : EntityStatus) : FacadeM Unit :=
  FacadeM.bind (getAdGroupsById customerId ids) fun adGroups =>
    updateStatuses ("customers/" ++ customerId ++ "/adGroups:mutate") status adGroups

/-- `updateCampaignStatusById`. -/
def updateCampaignStatusById (customerId : String) (ids : List String)
    (status : EntityStatus) : FacadeM Unit :=
  FacadeM.bind (getCampaingsById customerId ids) fun campaigns =>
    updateStatuses ("customers/" ++ customerId ++ "/campaigns:mutate") status campaigns

/-- `updateAdStatusByLabel`. -/
def updateAdStatusByLabel (customerId label : String) (status : EntityStatus) :
    FacadeM Unit :=
  FacadeM.bind (getAdsByLabel customerId label) fun ads =>
    updateStatuses ("customers/" ++ customerId ++ "/adGroupAds:mutate") status ads

/-- `updateAdGroupStatusByLabel`. -/
def updateAdGroupStatusByLabel (customerId label : String) (status : EntityStatus) :
    FacadeM Unit :=
  FacadeM.bind (getAdGroupsByLabel customerId label) fun adGroups =>
    updateStatuses ("customers/" ++ customerId ++ "/adGroups:mutate") status adGroups

/-- `updateCampaignsByLabel`. -/
def updateCampaignsByLabel (customerId label : String) (status : EntityStatus) :
    FacadeM Unit :=
  FacadeM.bind (getCampaignsByLabel customerId label) fun campaigns =>
    updateStatuses ("customers/" ++ customerId ++ "/campaigns:mutate") status campaigns

/-- `handleToggle`: map the evaluation to the target status, then
dispatch on the selector type; ID-based identifiers are split on
SEMICOLONS (`identifier.split(';')`). -/
def handleToggle (identifier : String) (type : SelectorType) (evaluation : Bool)
    (params : Parameters) : FacadeM Unit :=
  let status := if evaluation then EntityStatus.ENABLED else EntityStatus.PAUSED
  match type with
  | .AD_ID => updateAdStatusById params.customerId (jsSplit identifier ';') status
  | .AD_LABEL => updateAdStatusByLabel params.customerId identifier status
  | .AD_GROUP_ID => updateAdGroupStatusById params.customerId (jsSplit identifier ';') status
  | .AD_GROUP_LABEL => updateAdGroupStatusByLabel params.customerId identifier status
  | .CAMPAIGN_ID => updateCampaignStatusById params.customerId (jsSplit identifier ';') status
  | .CAMPAIGN_LABEL => updateCampaignsByLabel params.customerId identifier status

/-- `CVR_ADJUSTMENT_LOWER_BOUND`: a CVR cannot lower a conversion beyond
50% less than its original value. -/
def CVR_ADJUSTMENT_LOWER_BOUND : ℚ := -(1/2)

/-- `CVR_ADJUSTMENT_UPPER_BOUND`: a CVR cannot raise a conversion beyond
1000% more than its original value. -/
def CVR_ADJUSTMENT_UPPER_BOUND : ℚ := 10

/-- `handleManageConversionRule` (clamping side of the snapshot's merge
markers): require `conversionWeight` and `geo` (throwing an error
naming the missing field BEFORE any query is issued); resolve target
campaigns by id (split on semicolons) for `CAMPAIGN_ID`, otherwise by
label; then hand the campaign resource names to the `CampaignDao` —
`disableAllCvrsForCampaigns` when the evaluation is false, else
`persistCvrForCampaigns` with the weight clamped via
`Math.max(LOWER, Math.min(w, UPPER))` plus 1. -/
def handleManageConversionRule (identifier : String) (selectoryType : SelectorType)
    (evaluation : Bool) (params : Parameters) : FacadeM Unit :=
  match params.conversionWeight with
  | none => FacadeM.throw (JsError.error "The conversion weight target param was not provided.")
  | some conversionWeight =>
      match params.geo with
      | none => FacadeM.throw (JsError.error "The geo target param value was not provided.")
      | some geo =>
          FacadeM.bind
            (if selectoryType = SelectorType.CAMPAIGN_ID then
              getCampaingsById params.customerId (jsSplit identifier ';')
            else
              getCampaignsByLabel params.customerId identifier)
            fun campaings =>
              if evaluation = false then
                FacadeM.emit (FacadeCall.daoDisableAll
                  (campaings.map (fun e => e.resourceName)))
              else
                let clampedAdjustment : ℚ :=
                  max CVR_ADJUSTMENT_LOWER_BOUND
                    (min conversionWeight CVR_ADJUSTMENT_UPPER_BOUND)
                let finalAdjustment : ℚ := 1 + clampedAdjustment
                FacadeM.emit (FacadeCall.daoPersistCvr
                  (campaings.map (fun e => e.resourceName)) finalAdjustment geo)

/-- `process`: check required parameters and resolve authentication
(both boundary concerns: `customerId`/`developerToken` are present by
typing here, and the authentication provider is modelled from the spec
as a non-Ads-API collaborator), then dispatch on the action.  The
source's final `else` throw is unreachable over the two-valued action
enum. -/
def process (identifier : String) (type : SelectorType) (action : AdsAction)
    (evaluation : Bool) (params : Parameters) : FacadeM Unit :=
  match action with
  | .TOGGLE => handleToggle identifier type evaluation params
  | .MANAGE_CONV_VALUE_RULE => handleManageConversionRule identifier type evaluation params

/-- `validate`: read-only status check.  ID-based identifiers are split
on COMMAS (`identifier.split(',')`); only the four ad/ad-group selector
types resolve entities, the campaign selectors leave the checked list
empty.  One human-readable mismatch string per entity whose live status
differs from the status implied by the evaluation. -/
def validate (identifier : String) (type : SelectorType) (_action : AdsAction)
    (evaluation : Bool) (params : Parameters) : FacadeM (List String) :=
  let expectedStatus := if evaluation then EntityStatus.ENABLED else EntityStatus.PAUSED
  FacadeM.bind
    (match type with
      | .AD_ID => getAdsById params.customerId (jsSplit identifier ',')
      | .AD_LABEL => getAdsByLabel params.customerId identifier
      | .AD_GROUP_ID => getAdGroupsById params.customerId (jsSplit identifier ',')
      | .AD_GROUP_LABEL => getAdGroupsByLabel params.customerId identifier
      | _ => FacadeM.pure [])
    fun entitiesToBeChecked =>
      FacadeM.pure (entitiesToBeChecked.filterMap (fun entity =>
        if entity.status ≠ expectedStatus then
          some ("Status for " ++ identifier ++ " (" ++ type.str ++ ") should be "
            ++ expectedStatus.str ++ " but is " ++ entity.status.str)
        else
          none))

/-! ### API transport (`GoogleAdsApiClient.fetchUrl`)

The caching policy of the transport itself, at the HTTP level.  A
request is its URL together with the serialized fetch parameters
(headers, method, content type, payload) — exactly the data entering
the source's cache key `url ++ '-' ++ JSON.stringify(params)`; the
`forceCache` argument is NOT part of the key.  The HTTP fetch primitive
is a boundary collaborator (spec section 6); it is modelled as a
function from the request and the number of fetches already performed
to the response body, so that a "re-fetch" is observable as a possibly
different response.  Responses here are the successful (HTTP 200)
parsed bodies; the non-2xx throwing path adds nothing to the caching
claims. -/

/-- An HTTP request as keyed by the transport cache: URL plus the
serialized fetch parameters. -/
structure HttpRequest where
  url : String
  headers : String
  method : String
  contentType : String
  payload : Option String
deriving DecidableEq, Repr

/-- State of one client instance's transport: the response cache and
the log of fetches actually performed. -/
structure TransportState where
  cache : List (HttpRequest × String)
  fetchLog : List HttpRequest
deriving DecidableEq, Repr

/-- JavaScript's `String.prototype.toLowerCase`, written over the
character list so that it evaluates by reduction. -/
def jsToLower (s : String) : String := (s.toList.map Char.toLower).asString

/-- Cache lookup by serialized key. -/
def findCachedHttp (cache : List (HttpRequest × String)) (req : HttpRequest) :
    Option String :=
  match cache.find? (fun e => decide (e.1 = req)) with
  | some e => some e.2
  | none => none

/-- `fetchUrl`: serve from the per-instance cache whenever the key is
present (values are parsed JSON objects, hence truthy); otherwise fetch,
and store the response iff `method.toLowerCase() === 'get'` or
`forceCache`. -/
def fetchUrl (srv : HttpRequest → Nat → String) (req : HttpRequest)
    (forceCache : Bool) (s : TransportState) : String × TransportState :=
  match findCachedHttp s.cache req with
  | some res => (res, s)
  | none =>
      let res := srv req s.fetchLog.length
      (res,
        { cache := if jsToLower req.method = "get" || forceCache
              then s.cache ++ [(req, res)] else s.cache,
          fetchLog := s.fetchLog ++ [req] })

/-! ### Concrete instances used by counterexamples and witnesses -/

deriving instance DecidableEq for Except

/-- A fresh client instance: empty response cache, no requests issued
yet, pointed at the given remote state. -/
def freshClient (r : Remote) : ClientState := ⟨r, [], []⟩

/-- Facade environment in which campaign lookups (by id or label) find
one campaign, and everything else returns zero rows. -/
def sampleCampaignEnv : FacadeEnv where
  adsById := fun _ => none
  adGroupsById := fun _ => none
  campaignsById := fun _ => some [⟨"customers/1/campaigns/31", EntityStatus.ENABLED⟩]
  adLabelRows := fun _ => none
  adGroupLabelRows := fun _ => none
  adsByLabel := fun _ => none
  adGroupsByLabel := fun _ => none
  campaignsByLabel := fun _ => some [⟨"customers/1/campaigns/31", EntityStatus.ENABLED⟩]

/-- Facade environment in which every query returns zero rows. -/
def emptyEnv : FacadeEnv where
  adsById := fun _ => none
  adGroupsById := fun _ => none
  campaignsById := fun _ => none
  adLabelRows := fun _ => none
  adGroupLabelRows := fun _ => none
  adsByLabel := fun _ => none
  adGroupsByLabel := fun _ => none
  campaignsByLabel := fun _ => none

/-- An HTTP server whose response reveals how many fetches it has
answered so far (so that an avoided re-fetch is observable). -/
def srvEx : HttpRequest → Nat → String := fun _ k => "resp" ++ Nat.repr k

/-- A POST mutation request, as the transport sees it. -/
def postReqEx : HttpRequest :=
  ⟨"https://googleads.googleapis.com/v18/customers/1/conversionValueRuleSets:mutate",
   "auth", "POST", "application/json", some "payload"⟩

/-! ### Helper lemmas -/

/-- The status-mutation loop only appends mutation events to the call
list and never fails. -/
theorem updateStatuses_run (path : String) (status : EntityStatus) :
    ∀ (es : List Entity) (env : FacadeEnv) (tr : List FacadeCall),
      ∃ ms, updateStatuses path status es env tr = (Except.ok (), tr ++ ms) := by
  intro es
  induction es with
  | nil => intro env tr; exact ⟨[], by simp [updateStatuses, FacadeM.pure]⟩
  | cons e rest ih =>
      intro env tr
      obtain ⟨ms, hms⟩ := ih env (tr ++ [FacadeCall.statusMutate path e.resourceName status])
      exact ⟨FacadeCall.statusMutate path e.resourceName status :: ms, by
        simp [updateStatuses, FacadeM.bind, updateEntityStatus, FacadeM.emit, hms]⟩

/-- The facade's clamped multiplier `1 + max(LOWER, min(w, UPPER))`
always lies in `[1/2, 11]`. -/
theorem finalAdjustment_bounds (w : ℚ) :
    1/2 ≤ 1 + max CVR_ADJUSTMENT_LOWER_BOUND (min w CVR_ADJUSTMENT_UPPER_BOUND)
    ∧ 1 + max CVR_ADJUSTMENT_LOWER_BOUND (min w CVR_ADJUSTMENT_UPPER_BOUND) ≤ 11 := by
  simp only [CVR_ADJUSTMENT_LOWER_BOUND, CVR_ADJUSTMENT_UPPER_BOUND]
  constructor
  · have h := le_max_left (-(1/2) : ℚ) (min w 10)
    linarith
  · have h2 : max (-(1/2) : ℚ) (min w 10) ≤ 10 :=
      max_le (by norm_num) (min_le_right _ _)
    linarith

/-- A label-not-found error message names the label it is about. -/
theorem labelError_names (labelName : String) :
    (JsError.error ("Label " ++ labelName ++ " not found")).names labelName = true := by
  rw [JsError.names, JsError.message]
  rw [decide_eq_true_iff]
  exact ⟨"Label ".toList, " not found".toList, by simp [String.toList]⟩

/-! ### Claims -/

/-- C1 (counterexample): on ONE client instance, reconciling the same
(campaign, geo, weight) twice is NOT idempotent.  The remote holds a
rule-set for the campaign with one rule for the New York geo whose
multiplier 2 differs from the requested weight 3.  The first call reads
the rule and issues exactly one update; but because the rule-set and
rule read queries are issued with `forceCache` on a per-instance cache
that is never invalidated, the second call on the SAME client reads the
STALE value 2 back from the cache, concludes the values still differ,
and issues the update mutation a second time — one mutation, not the
zero mutation calls the claim requires. -/
theorem C1_counterexample :
    mutationCount (persistCvrForCampaigns "1" ["customers/1/campaigns/31"] 3 "New York"
      (freshClient ⟨[⟨"geoTargetConstants/1023191", "New York", "City"⟩],
        [⟨"customers/1/conversionValueRules/11", 2, ["geoTargetConstants/1023191"]⟩],
        [⟨"customers/1/conversionValueRuleSets/21", "customers/1/campaigns/31",
          ["customers/1/conversionValueRules/11"]⟩], 100, false⟩)).2 = 1
    ∧ mutationCount (persistCvrForCampaigns "1" ["customers/1/campaigns/31"] 3 "New York"
      (persistCvrForCampaigns "1" ["customers/1/campaigns/31"] 3 "New York"
        (freshClient ⟨[⟨"geoTargetConstants/1023191", "New York", "City"⟩],
          [⟨"customers/1/conversionValueRules/11", 2, ["geoTargetConstants/1023191"]⟩],
          [⟨"customers/1/conversionValueRuleSets/21", "customers/1/campaigns/31",
            ["customers/1/conversionValueRules/11"]⟩], 100, false⟩)).2).2 = 2 := by
  decide

/-- C1 (amended): reconciliation is idempotent at the REMOTE-state
level, when each call reads the current remote state (a fresh client
instance per call, so no stale cached reads): for every campaign, geo,
rule-set and rule names, and weights `v ≠ w`, the first call issues
exactly one rule update mutation and a second call running against the
resulting remote state on a fresh client reads the value back, finds it
equal and issues zero mutation calls. -/
theorem C1_amended_fresh_read_idempotence
    (cid camp gname gRes sName rName : String) (v w : ℚ) (n : Nat) (h : v ≠ w) :
    (persistCvrForCampaigns cid [camp] w gname
      (freshClient ⟨[⟨gRes, gname, "City"⟩], [⟨rName, v, [gRes]⟩],
        [⟨sName, camp, [rName]⟩], n, false⟩)).1 = Except.ok ()
    ∧ (persistCvrForCampaigns cid [camp] w gname
      (freshClient ⟨[⟨gRes, gname, "City"⟩], [⟨rName, v, [gRes]⟩],
        [⟨sName, camp, [rName]⟩], n, false⟩)).2.trace.filter Req.isMutation
      = [Req.cvrUpdate cid rName w]
    ∧ (persistCvrForCampaigns cid [camp] w gname
        (freshClient (persistCvrForCampaigns cid [camp] w gname
          (freshClient ⟨[⟨gRes, gname, "City"⟩], [⟨rName, v, [gRes]⟩],
            [⟨sName, camp, [rName]⟩], n, false⟩)).2.remote)).1 = Except.ok ()
    ∧ (persistCvrForCampaigns cid [camp] w gname
        (freshClient (persistCvrForCampaigns cid [camp] w gname
          (freshClient ⟨[⟨gRes, gname, "City"⟩], [⟨rName, v, [gRes]⟩],
            [⟨sName, camp, [rName]⟩], n, false⟩)).2.remote)).2.trace.filter Req.isMutation
      = [] := by
  refine ⟨?_, ?_, ?_, ?_⟩ <;>
  simp [persistCvrForCampaigns, processCampaigns, processCampaign, findCvrForGeo,
    getGeoTargetByName, getConversionValueRuleSetForCampaign, getConversionValueRule,
    createConversionValueRule, updateConversionValueRule, createConversionValueRuleSet,
    updateConversionValueRuleSet, makeApiCall, findCached, execRemote,
    EngineM.bind, EngineM.pure, EngineM.throw, freshClient, Req.keyEq, Req.isMutation, h]

/-- C1 (witness): the amended idempotence at stored value 2 and
requested weight 3. -/
theorem C1_amended_fresh_read_idempotence_witness :
    ((2 : ℚ) ≠ 3)
    ∧ ((persistCvrForCampaigns "1" ["customers/1/campaigns/31"] 3 "New York"
      (freshClient ⟨[⟨"geoTargetConstants/1023191", "New York", "City"⟩],
        [⟨"customers/1/conversionValueRules/11", 2, ["geoTargetConstants/1023191"]⟩],
        [⟨"customers/1/conversionValueRuleSets/21", "customers/1/campaigns/31",
          ["customers/1/conversionValueRules/11"]⟩], 100, false⟩)).1 = Except.ok ()
    ∧ (persistCvrForCampaigns "1" ["customers/1/campaigns/31"] 3 "New York"
      (freshClient ⟨[⟨"geoTargetConstants/1023191", "New York", "City"⟩],
        [⟨"customers/1/conversionValueRules/11", 2, ["geoTargetConstants/1023191"]⟩],
        [⟨"customers/1/conversionValueRuleSets/21", "customers/1/campaigns/31",
          ["customers/1/conversionValueRules/11"]⟩], 100, false⟩)).2.trace.filter
        Req.isMutation
      = [Req.cvrUpdate "1" "customers/1/conversionValueRules/11" 3]
    ∧ (persistCvrForCampaigns "1" ["customers/1/campaigns/31"] 3 "New York"
        (freshClient (persistCvrForCampaigns "1" ["customers/1/campaigns/31"] 3 "New York"
          (freshClient ⟨[⟨"geoTargetConstants/1023191", "New York", "City"⟩],
            [⟨"customers/1/conversionValueRules/11", 2, ["geoTargetConstants/1023191"]⟩],
            [⟨"customers/1/conversionValueRuleSets/21", "customers/1/campaigns/31",
              ["customers/1/conversionValueRules/11"]⟩], 100, false⟩)).2.remote)).1
        = Except.ok ()
    ∧ (persistCvrForCampaigns "1" ["customers/1/campaigns/31"] 3 "New York"
        (freshClient (persistCvrForCampaigns "1" ["customers/1/campaigns/31"] 3 "New York"
          (freshClient ⟨[⟨"geoTargetConstants/1023191", "New York", "City"⟩],
            [⟨"customers/1/conversionValueRules/11", 2, ["geoTargetConstants/1023191"]⟩],
            [⟨"customers/1/conversionValueRuleSets/21", "customers/1/campaigns/31",
              ["customers/1/conversionValueRules/11"]⟩], 100, false⟩)).2.remote)).2.trace.filter
        Req.isMutation
      = []) :=
  ⟨by norm_num,
    C1_amended_fresh_read_idempotence "1" "customers/1/campaigns/31" "New York"
      "geoTargetConstants/1023191" "customers/1/conversionValueRuleSets/21"
      "customers/1/conversionValueRules/11" 2 3 100 (by norm_num)⟩

/-- C2 (confirmed): whenever `handleManageConversionRule` runs with
evaluation `true` and raw weight `w`, every multiplier handed to the
`CampaignDao`'s `persistCvrForCampaigns` equals
`1 + max(LOWER, min(w, UPPER))` — the claim's
`1 + clamp(w, -0.5, 10.0)` with `clamp(w, lo, hi) = max(lo, min(w, hi))`
— and therefore lies in `[0.5, 11.0]`. -/
theorem C2_clamped_multiplier (env : FacadeEnv) (identifier : String)
    (selType : SelectorType) (params : Parameters) (w : ℚ)
    (hw : params.conversionWeight = some w) :
    ∀ (camps : List String) (m : ℚ) (g : String) (r : Except JsError Unit)
      (tr : List FacadeCall),
      handleManageConversionRule identifier selType true params env [] = (r, tr) →
      FacadeCall.daoPersistCvr camps m g ∈ tr →
      m = 1 + max CVR_ADJUSTMENT_LOWER_BOUND (min w CVR_ADJUSTMENT_UPPER_BOUND)
        ∧ 1/2 ≤ m ∧ m ≤ 11 := by
  intro camps m g r tr hrun hmem
  cases hgeo : params.geo with
  | none =>
      rw [handleManageConversionRule, hw, hgeo] at hrun
      simp [FacadeM.throw] at hrun
      obtain ⟨_, htr⟩ := hrun
      subst htr
      simp at hmem
  | some geo =>
      rw [handleManageConversionRule, hw, hgeo] at hrun
      by_cases hsel : selType = SelectorType.CAMPAIGN_ID
      · rw [if_pos hsel] at hrun
        cases henv : env.campaignsById (jsSplit identifier ';') with
        | none =>
            simp [getCampaingsById, FacadeM.bind, FacadeM.emit, henv] at hrun
            obtain ⟨_, htr⟩ := hrun
            subst htr
            simp at hmem
        | some rows =>
            simp [getCampaingsById, FacadeM.bind, FacadeM.emit, FacadeM.pure,
              FacadeM.throw, henv] at hrun
            obtain ⟨_, htr⟩ := hrun
            subst htr
            simp at hmem
            rcases hmem with ⟨hc, hm, hg⟩
            refine ⟨hm, ?_, ?_⟩
            · rw [hm]; exact (finalAdjustment_bounds w).1
            · rw [hm]; exact (finalAdjustment_bounds w).2
      · rw [if_neg hsel] at hrun
        cases henv : env.campaignsByLabel identifier with
        | none =>
            simp [getCampaignsByLabel, FacadeM.bind, FacadeM.emit, henv] at hrun
            obtain ⟨_, htr⟩ := hrun
            subst htr
            simp at hmem
        | some rows =>
            simp [getCampaignsByLabel, FacadeM.bind, FacadeM.emit, FacadeM.pure,
              FacadeM.throw, henv] at hrun
            obtain ⟨_, htr⟩ := hrun
            subst htr
            simp at hmem
            rcases hmem with ⟨hc, hm, hg⟩
            refine ⟨hm, ?_, ?_⟩
            · rw [hm]; exact (finalAdjustment_bounds w).1
            · rw [hm]; exact (finalAdjustment_bounds w).2

/-- C2 (witness): raw weight 15 is clamped to 10 and handed to the DAO
as multiplier 11 — the claim's example `rawWeight=15 → 11.0`. -/
theorem C2_clamped_multiplier_witness :
    (Parameters.mk "1" "token" none (some "New York") (some 15)).conversionWeight = some 15
    ∧ handleManageConversionRule "promo" SelectorType.CAMPAIGN_LABEL true
        (Parameters.mk "1" "token" none (some "New York") (some 15)) sampleCampaignEnv []
      = (Except.ok (), [FacadeCall.campaignsByLabelQuery "1" "promo",
          FacadeCall.daoPersistCvr ["customers/1/campaigns/31"] 11 "New York"])
    ∧ FacadeCall.daoPersistCvr ["customers/1/campaigns/31"] 11 "New York"
        ∈ [FacadeCall.campaignsByLabelQuery "1" "promo",
           FacadeCall.daoPersistCvr ["customers/1/campaigns/31"] 11 "New York"]
    ∧ ((11 : ℚ) = 1 + max CVR_ADJUSTMENT_LOWER_BOUND (min 15 CVR_ADJUSTMENT_UPPER_BOUND)
        ∧ 1/2 ≤ (11 : ℚ) ∧ (11 : ℚ) ≤ 11) := by
  have h11 : (1 + max CVR_ADJUSTMENT_LOWER_BOUND (min (15 : ℚ) CVR_ADJUSTMENT_UPPER_BOUND))
      = 11 := by
    rw [CVR_ADJUSTMENT_LOWER_BOUND, CVR_ADJUSTMENT_UPPER_BOUND]
    norm_num
  have hrun : handleManageConversionRule "promo" SelectorType.CAMPAIGN_LABEL true
      (Parameters.mk "1" "token" none (some "New York") (some 15)) sampleCampaignEnv []
      = (Except.ok (), [FacadeCall.campaignsByLabelQuery "1" "promo",
          FacadeCall.daoPersistCvr ["customers/1/campaigns/31"] 11 "New York"]) := by
    simp [handleManageConversionRule, getCampaignsByLabel, sampleCampaignEnv,
      FacadeM.bind, FacadeM.emit, FacadeM.pure, h11]
  exact ⟨rfl, hrun, by decide,
    C2_clamped_multiplier sampleCampaignEnv "promo" SelectorType.CAMPAIGN_LABEL
      (Parameters.mk "1" "token" none (some "New York") (some 15)) 15 rfl
      ["customers/1/campaigns/31"] 11 "New York" (Except.ok ())
      [FacadeCall.campaignsByLabelQuery "1" "promo",
       FacadeCall.daoPersistCvr ["customers/1/campaigns/31"] 11 "New York"]
      hrun (by decide)⟩

/-- C3 (confirmed): membership preservation.  A campaign's rule-set
holds rules `rA`, `rB` for geos `gA`, `gB`; reconciling the campaign
for a third geo `gC` (with any weights) creates one new rule for `gC`
and sends the rule-set update with the full replacement list
`[rA, rB, newRule]` — the existing members are kept, never dropped —
leaving the rule-set membership exactly `{rA, rB, newRule}`. -/
theorem C3_membership_preserved (cid camp gname gC gA gB sName rA rB : String)
    (vA vB w : ℚ) (n : Nat)
    (hA : gA ≠ gC) (hB : gB ≠ gC) (hBA : rB ≠ rA) :
    (persistCvrForCampaigns cid [camp] w gname
      (freshClient ⟨[⟨gC, gname, "City"⟩], [⟨rA, vA, [gA]⟩, ⟨rB, vB, [gB]⟩],
        [⟨sName, camp, [rA, rB]⟩], n, false⟩)).1 = Except.ok ()
    ∧ (persistCvrForCampaigns cid [camp] w gname
      (freshClient ⟨[⟨gC, gname, "City"⟩], [⟨rA, vA, [gA]⟩, ⟨rB, vB, [gB]⟩],
        [⟨sName, camp, [rA, rB]⟩], n, false⟩)).2.trace.filter Req.isMutation
      = [Req.cvrCreate cid gC w, Req.ruleSetUpdate cid sName [rA, rB, cvrResourceName cid n]]
    ∧ (persistCvrForCampaigns cid [camp] w gname
      (freshClient ⟨[⟨gC, gname, "City"⟩], [⟨rA, vA, [gA]⟩, ⟨rB, vB, [gB]⟩],
        [⟨sName, camp, [rA, rB]⟩], n, false⟩)).2.remote.ruleSets
      = [⟨sName, camp, [rA, rB, cvrResourceName cid n]⟩] := by
  refine ⟨?_, ?_, ?_⟩ <;>
  simp [persistCvrForCampaigns, processCampaigns, processCampaign, findCvrForGeo,
    getGeoTargetByName, getConversionValueRuleSetForCampaign, getConversionValueRule,
    createConversionValueRule, updateConversionValueRule, createConversionValueRuleSet,
    updateConversionValueRuleSet, makeApiCall, findCached, execRemote,
    EngineM.bind, EngineM.pure, EngineM.throw, freshClient, Req.keyEq, Req.isMutation,
    hA, hB, hBA, Ne.symm hBA]

/-- C3 (witness): membership `{A, B}` extended to `{A, B, C}` at
concrete resource names and weights 2, 3, 5. -/
theorem C3_membership_preserved_witness :
    ("geoTargetConstants/1001" ≠ "geoTargetConstants/9001"
      ∧ "geoTargetConstants/1002" ≠ "geoTargetConstants/9001"
      ∧ "customers/1/conversionValueRules/2" ≠ "customers/1/conversionValueRules/1")
    ∧ ((persistCvrForCampaigns "1" ["customers/1/campaigns/31"] 5 "Paris"
      (freshClient ⟨[⟨"geoTargetConstants/9001", "Paris", "City"⟩],
        [⟨"customers/1/conversionValueRules/1", 2, ["geoTargetConstants/1001"]⟩,
         ⟨"customers/1/conversionValueRules/2", 3, ["geoTargetConstants/1002"]⟩],
        [⟨"customers/1/conversionValueRuleSets/21", "customers/1/campaigns/31",
          ["customers/1/conversionValueRules/1", "customers/1/conversionValueRules/2"]⟩],
        77, false⟩)).1 = Except.ok ()
    ∧ (persistCvrForCampaigns "1" ["customers/1/campaigns/31"] 5 "Paris"
      (freshClient ⟨[⟨"geoTargetConstants/9001", "Paris", "City"⟩],
        [⟨"customers/1/conversionValueRules/1", 2, ["geoTargetConstants/1001"]⟩,
         ⟨"customers/1/conversionValueRules/2", 3, ["geoTargetConstants/1002"]⟩],
        [⟨"customers/1/conversionValueRuleSets/21", "customers/1/campaigns/31",
          ["customers/1/conversionValueRules/1", "customers/1/conversionValueRules/2"]⟩],
        77, false⟩)).2.trace.filter Req.isMutation
      = [Req.cvrCreate "1" "geoTargetConstants/9001" 5,
         Req.ruleSetUpdate "1" "customers/1/conversionValueRuleSets/21"
           ["customers/1/conversionValueRules/1", "customers/1/conversionValueRules/2",
            cvrResourceName "1" 77]]
    ∧ (persistCvrForCampaigns "1" ["customers/1/campaigns/31"] 5 "Paris"
      (freshClient ⟨[⟨"geoTargetConstants/9001", "Paris", "City"⟩],
        [⟨"customers/1/conversionValueRules/1", 2, ["geoTargetConstants/1001"]⟩,
         ⟨"customers/1/conversionValueRules/2", 3, ["geoTargetConstants/1002"]⟩],
        [⟨"customers/1/conversionValueRuleSets/21", "customers/1/campaigns/31",
          ["customers/1/conversionValueRules/1", "customers/1/conversionValueRules/2"]⟩],
        77, false⟩)).2.remote.ruleSets
      = [⟨"customers/1/conversionValueRuleSets/21", "customers/1/campaigns/31",
          ["customers/1/conversionValueRules/1", "customers/1/conversionValueRules/2",
           cvrResourceName "1" 77]⟩]) :=
  ⟨⟨by decide, by decide, by decide⟩,
    C3_membership_preserved "1" "customers/1/campaigns/31" "Paris"
      "geoTargetConstants/9001" "geoTargetConstants/1001" "geoTargetConstants/1002"
      "customers/1/conversionValueRuleSets/21" "customers/1/conversionValueRules/1"
      "customers/1/conversionValueRules/2" 2 3 5 77
      (by decide) (by decide) (by decide)⟩

/-- C4 (confirmed): fresh-creation path.  For a campaign for which the
rule-set query returns zero rows, reconciliation issues exactly two
mutations — one rule create for the geo, then one rule-set create for
the campaign whose membership list references only the newly created
rule — and the resulting remote rule-set references only that rule. -/
theorem C4_fresh_creation (cid camp gname gRes : String) (w : ℚ) (n : Nat) :
    (persistCvrForCampaigns cid [camp] w gname
      (freshClient ⟨[⟨gRes, gname, "City"⟩], [], [], n, false⟩)).1 = Except.ok ()
    ∧ (persistCvrForCampaigns cid [camp] w gname
      (freshClient ⟨[⟨gRes, gname, "City"⟩], [], [], n, false⟩)).2.trace.filter
        Req.isMutation
      = [Req.cvrCreate cid gRes w, Req.ruleSetCreate cid camp [cvrResourceName cid n]]
    ∧ (persistCvrForCampaigns cid [camp] w gname
      (freshClient ⟨[⟨gRes, gname, "City"⟩], [], [], n, false⟩)).2.remote.ruleSets
      = [⟨ruleSetResourceName cid (n + 1), camp, [cvrResourceName cid n]⟩] := by
  refine ⟨?_, ?_, ?_⟩ <;>
  simp [persistCvrForCampaigns, processCampaigns, processCampaign, findCvrForGeo,
    getGeoTargetByName, getConversionValueRuleSetForCampaign, getConversionValueRule,
    createConversionValueRule, updateConversionValueRule, createConversionValueRuleSet,
    updateConversionValueRuleSet, makeApiCall, findCached, execRemote,
    EngineM.bind, EngineM.pure, EngineM.throw, freshClient, Req.keyEq, Req.isMutation]

/-- C5 (counterexample): per-campaign failures are NOT isolated.  In a
batch of two campaigns, the first campaign's rule-set references a rule
that does not exist remotely, so reading it throws; the second campaign
is then never processed — its rule-set is never even queried and no
mutation is issued for it — contradicting the claim that every other
campaign in the batch is still processed to completion.  (The engine
also swallows the error: the call returns normally.) -/
theorem C5_counterexample :
    (persistCvrForCampaigns "1" ["customers/1/campaigns/31", "customers/1/campaigns/32"]
      3 "New York"
      (freshClient ⟨[⟨"geoTargetConstants/1023191", "New York", "City"⟩], [],
        [⟨"customers/1/conversionValueRuleSets/21", "customers/1/campaigns/31",
          ["customers/1/conversionValueRules/99"]⟩], 0, false⟩)).1 = Except.ok ()
    ∧ Req.ruleSetQuery "1" "customers/1/campaigns/32"
        ∉ (persistCvrForCampaigns "1"
            ["customers/1/campaigns/31", "customers/1/campaigns/32"] 3 "New York"
            (freshClient ⟨[⟨"geoTargetConstants/1023191", "New York", "City"⟩], [],
              [⟨"customers/1/conversionValueRuleSets/21", "customers/1/campaigns/31",
                ["customers/1/conversionValueRules/99"]⟩], 0, false⟩)).2.trace
    ∧ mutationCount (persistCvrForCampaigns "1"
        ["customers/1/campaigns/31", "customers/1/campaigns/32"] 3 "New York"
        (freshClient ⟨[⟨"geoTargetConstants/1023191", "New York", "City"⟩], [],
          [⟨"customers/1/conversionValueRuleSets/21", "customers/1/campaigns/31",
            ["customers/1/conversionValueRules/99"]⟩], 0, false⟩)).2 = 0 := by
  decide

/-- C5 (amended): an exception while processing one campaign aborts the
remaining campaigns of the batch — for every batch `[camp1, camp2]`
where `camp1`'s rule-set references a rule missing remotely, the whole
network trace is the geo query, `camp1`'s rule-set query and the
failing rule read: `camp2` is never queried nor mutated; the error is
caught and logged by `persistCvrForCampaigns`, which returns
normally. -/
theorem C5_amended_batch_abort (cid camp1 camp2 gname gRes sName ghost : String)
    (w : ℚ) (n : Nat) :
    (persistCvrForCampaigns cid [camp1, camp2] w gname
      (freshClient ⟨[⟨gRes, gname, "City"⟩], [], [⟨sName, camp1, [ghost]⟩], n, false⟩)).1
      = Except.ok ()
    ∧ (persistCvrForCampaigns cid [camp1, camp2] w gname
      (freshClient ⟨[⟨gRes, gname, "City"⟩], [], [⟨sName, camp1, [ghost]⟩], n, false⟩)).2.trace
      = [Req.geoQuery cid gname, Req.ruleSetQuery cid camp1, Req.cvrQuery cid ghost] := by
  constructor <;>
  simp [persistCvrForCampaigns, processCampaigns, processCampaign, findCvrForGeo,
    getGeoTargetByName, getConversionValueRuleSetForCampaign, getConversionValueRule,
    createConversionValueRule, updateConversionValueRule, createConversionValueRuleSet,
    updateConversionValueRuleSet, makeApiCall, findCached, execRemote,
    EngineM.bind, EngineM.pure, EngineM.throw, freshClient, Req.keyEq, Req.isMutation]

/-- C6 (counterexample): a failed rule-set create does NOT propagate to
the caller.  The modelled platform rejects the rule-set create (empty
`results`), so `createConversionValueRuleSet` throws — but
`persistCvrForCampaigns` returns `ok`, because the per-campaign loop is
wrapped in a `try`/`catch` that only logs.  The rule created just
before remains (no rollback), the rule-set was attempted and does not
exist. -/
theorem C6_counterexample :
    (persistCvrForCampaigns "1" ["customers/1/campaigns/31"] 3 "New York"
      (freshClient ⟨[⟨"geoTargetConstants/1023191", "New York", "City"⟩], [], [], 50,
        true⟩)).1 = Except.ok ()
    ∧ Req.ruleSetCreate "1" "customers/1/campaigns/31" [cvrResourceName "1" 50]
        ∈ (persistCvrForCampaigns "1" ["customers/1/campaigns/31"] 3 "New York"
          (freshClient ⟨[⟨"geoTargetConstants/1023191", "New York", "City"⟩], [], [], 50,
            true⟩)).2.trace
    ∧ (persistCvrForCampaigns "1" ["customers/1/campaigns/31"] 3 "New York"
      (freshClient ⟨[⟨"geoTargetConstants/1023191", "New York", "City"⟩], [], [], 50,
        true⟩)).2.remote.cvrs
      = [⟨cvrResourceName "1" 50, 3, ["geoTargetConstants/1023191"]⟩]
    ∧ (persistCvrForCampaigns "1" ["customers/1/campaigns/31"] 3 "New York"
      (freshClient ⟨[⟨"geoTargetConstants/1023191", "New York", "City"⟩], [], [], 50,
        true⟩)).2.remote.ruleSets = [] := by
  decide

/-- C6 (amended): for every campaign, geo and weight, when the rule-set
create fails after the rule create succeeded, the error is caught and
logged inside `persistCvrForCampaigns` (the call returns normally — it
does not propagate through the facade to its caller), and the mutation
already issued is not rolled back: the created rule stays in the remote
state while no rule-set exists. -/
theorem C6_amended_swallowed_no_rollback (cid camp gname gRes : String) (w : ℚ) (n : Nat) :
    (persistCvrForCampaigns cid [camp] w gname
      (freshClient ⟨[⟨gRes, gname, "City"⟩], [], [], n, true⟩)).1 = Except.ok ()
    ∧ (persistCvrForCampaigns cid [camp] w gname
      (freshClient ⟨[⟨gRes, gname, "City"⟩], [], [], n, true⟩)).2.trace
      = [Req.geoQuery cid gname, Req.ruleSetQuery cid camp,
         Req.cvrCreate cid gRes w, Req.ruleSetCreate cid camp [cvrResourceName cid n]]
    ∧ (persistCvrForCampaigns cid [camp] w gname
      (freshClient ⟨[⟨gRes, gname, "City"⟩], [], [], n, true⟩)).2.remote.cvrs
      = [⟨cvrResourceName cid n, w, [gRes]⟩]
    ∧ (persistCvrForCampaigns cid [camp] w gname
      (freshClient ⟨[⟨gRes, gname, "City"⟩], [], [], n, true⟩)).2.remote.ruleSets = [] := by
  refine ⟨?_, ?_, ?_, ?_⟩ <;>
  simp [persistCvrForCampaigns, processCampaigns, processCampaign, findCvrForGeo,
    getGeoTargetByName, getConversionValueRuleSetForCampaign, getConversionValueRule,
    createConversionValueRule, updateConversionValueRule, createConversionValueRuleSet,
    updateConversionValueRuleSet, makeApiCall, findCached, execRemote,
    EngineM.bind, EngineM.pure, EngineM.throw, freshClient, Req.keyEq, Req.isMutation]

/-- C7 (confirmed): parameter validation for MANAGE_CONV_VALUE_RULE.
For every environment and input, when `conversionWeight` is absent the
facade's `process` fails with the parameter-missing error naming the
conversion weight, and when `conversionWeight` is present but `geo` is
absent it fails with the error naming the geo; in both cases the
resulting call list is empty — the failure happens before any network
call is issued. -/
theorem C7_parameter_validation (env : FacadeEnv) (identifier : String)
    (type : SelectorType) (evaluation : Bool) (params : Parameters) :
    (params.conversionWeight = none →
      process identifier type AdsAction.MANAGE_CONV_VALUE_RULE evaluation params env []
        = (Except.error
            (JsError.error "The conversion weight target param was not provided."), [])
      ∧ (JsError.error "The conversion weight target param was not provided.").names
          "conversion weight" = true)
    ∧ (∀ w : ℚ, params.conversionWeight = some w → params.geo = none →
      process identifier type AdsAction.MANAGE_CONV_VALUE_RULE evaluation params env []
        = (Except.error (JsError.error "The geo target param value was not provided."), [])
      ∧ (JsError.error "The geo target param value was not provided.").names "geo"
          = true) := by
  constructor
  · intro h
    constructor
    · rw [process, handleManageConversionRule, h]
      rfl
    · decide
  · intro w h hg
    constructor
    · rw [process, handleManageConversionRule, h, hg]
      rfl
    · decide

/-- C7 (witness): missing conversion weight, and missing geo with
weight 15, both rejected with the named field and an empty call list. -/
theorem C7_parameter_validation_witness :
    ((Parameters.mk "1" "token" none (some "New York") none).conversionWeight = none
      ∧ (process "31" SelectorType.CAMPAIGN_ID AdsAction.MANAGE_CONV_VALUE_RULE true
          (Parameters.mk "1" "token" none (some "New York") none) emptyEnv []
        = (Except.error
            (JsError.error "The conversion weight target param was not provided."), [])
      ∧ (JsError.error "The conversion weight target param was not provided.").names
          "conversion weight" = true))
    ∧ ((Parameters.mk "1" "token" none none (some 15)).conversionWeight = some 15
      ∧ (Parameters.mk "1" "token" none none (some 15)).geo = none
      ∧ (process "31" SelectorType.CAMPAIGN_ID AdsAction.MANAGE_CONV_VALUE_RULE true
          (Parameters.mk "1" "token" none none (some 15)) emptyEnv []
        = (Except.error (JsError.error "The geo target param value was not provided."), [])
      ∧ (JsError.error "The geo target param value was not provided.").names "geo"
          = true)) :=
  ⟨⟨rfl, (C7_parameter_validation emptyEnv "31" SelectorType.CAMPAIGN_ID true
      (Parameters.mk "1" "token" none (some "New York") none)).1 rfl⟩,
   ⟨rfl, rfl, (C7_parameter_validation emptyEnv "31" SelectorType.CAMPAIGN_ID true
      (Parameters.mk "1" "token" none none (some 15))).2 15 rfl rfl⟩⟩

/-- C8 (counterexample): the geo lookup does NOT name the missing
resource.  Against a remote with no geo target named `Atlantis`, the
engine's `getGeoTargetByName` reads `res.results[0]` of a zero-row
response and fails with a `TypeError` — the operation does fail fast,
but with an error that carries no message naming `Atlantis`,
contradicting the claim that every geo lookup failure names the
geo/city. -/
theorem C8_counterexample :
    (persistCvrForCampaigns "1" ["customers/1/campaigns/31"] 3 "Atlantis"
      (freshClient ⟨[], [], [], 0, false⟩)).1 = Except.error JsError.typeError
    ∧ JsError.typeError.names "Atlantis" = false := by
  decide

/-- C8 (amended): ad and ad-group label lookups with zero rows fail
fast with `Label <name> not found`, an error naming the label; but the
campaign-label lookup and the geo lookup with zero rows fail fast with
a generic `TypeError` (reading `results` of a zero-row response) whose
message names nothing. -/
theorem C8_amended_lookup_errors (env : FacadeEnv) (cid adLabel agLabel cLabel : String)
    (tr1 tr2 tr3 : List FacadeCall)
    (remote : Remote) (campaigns : List String) (w : ℚ) (gname : String)
    (h1 : env.adLabelRows adLabel = none)
    (h2 : env.adGroupLabelRows agLabel = none)
    (h3 : env.campaignsByLabel cLabel = none)
    (hgeo : remote.geoTargets.filter
      (fun g => decide (g.targetType = "City") && decide (g.name = gname)) = []) :
    (getAdLabelByName cid adLabel env tr1
        = (Except.error (JsError.error ("Label " ++ adLabel ++ " not found")),
           tr1 ++ [FacadeCall.adLabelQuery cid adLabel])
      ∧ (JsError.error ("Label " ++ adLabel ++ " not found")).names adLabel = true)
    ∧ (getAdGroupLabelByName cid agLabel env tr2
        = (Except.error (JsError.error ("Label " ++ agLabel ++ " not found")),
           tr2 ++ [FacadeCall.adGroupLabelQuery cid agLabel])
      ∧ (JsError.error ("Label " ++ agLabel ++ " not found")).names agLabel = true)
    ∧ (getCampaignsByLabel cid cLabel env tr3
        = (Except.error JsError.typeError, tr3 ++ [FacadeCall.campaignsByLabelQuery cid cLabel])
      ∧ JsError.typeError.names cLabel = false)
    ∧ ((persistCvrForCampaigns cid campaigns w gname (freshClient remote)).1
        = Except.error JsError.typeError
      ∧ JsError.typeError.names gname = false) := by
  refine ⟨⟨?_, labelError_names adLabel⟩, ⟨?_, labelError_names agLabel⟩,
    ⟨?_, rfl⟩, ⟨?_, rfl⟩⟩
  · simp [getAdLabelByName, FacadeM.bind, FacadeM.emit, h1]
  · simp [getAdGroupLabelByName, FacadeM.bind, FacadeM.emit, h2]
  · simp [getCampaignsByLabel, FacadeM.bind, FacadeM.emit, h3]
  · simp [persistCvrForCampaigns, getGeoTargetByName, makeApiCall, findCached,
      execRemote, EngineM.bind, EngineM.pure, EngineM.throw, freshClient, hgeo]

/-- C8 (witness): the amended lookup errors at concrete label names, a
concrete campaign label, and the geo name `Atlantis` against an empty
remote. -/
theorem C8_amended_lookup_errors_witness :
    (emptyEnv.adLabelRows "summer" = none
      ∧ emptyEnv.adGroupLabelRows "winter" = none
      ∧ emptyEnv.campaignsByLabel "promo" = none
      ∧ (Remote.mk [] [] [] 0 false).geoTargets.filter
          (fun g => decide (g.targetType = "City") && decide (g.name = "Atlantis")) = [])
    ∧ ((getAdLabelByName "1" "summer" emptyEnv []
        = (Except.error (JsError.error ("Label " ++ "summer" ++ " not found")),
           [] ++ [FacadeCall.adLabelQuery "1" "summer"])
      ∧ (JsError.error ("Label " ++ "summer" ++ " not found")).names "summer" = true)
    ∧ (getAdGroupLabelByName "1" "winter" emptyEnv []
        = (Except.error (JsError.error ("Label " ++ "winter" ++ " not found")),
           [] ++ [FacadeCall.adGroupLabelQuery "1" "winter"])
      ∧ (JsError.error ("Label " ++ "winter" ++ " not found")).names "winter" = true)
    ∧ (getCampaignsByLabel "1" "promo" emptyEnv []
        = (Except.error JsError.typeError, [] ++ [FacadeCall.campaignsByLabelQuery "1" "promo"])
      ∧ JsError.typeError.names "promo" = false)
    ∧ ((persistCvrForCampaigns "1" ["customers/1/campaigns/31"] 3 "Atlantis"
        (freshClient (Remote.mk [] [] [] 0 false))).1 = Except.error JsError.typeError
      ∧ JsError.typeError.names "Atlantis" = false)) :=
  ⟨⟨rfl, rfl, rfl, rfl⟩,
    C8_amended_lookup_errors emptyEnv "1" "summer" "winter" "promo" [] [] []
      (Remote.mk [] [] [] 0 false) ["customers/1/campaigns/31"] 3 "Atlantis"
      rfl rfl rfl rfl⟩

/-- C9 (counterexample): serving from the cache is NOT gated on the
current call's method or `forceCache`.  A POST issued once with
`forceCache = true` stores its response under a key that does not
include the `forceCache` flag; a second identical POST with
`forceCache = false` — neither a GET nor force-cached — is nevertheless
served from the cache: it returns the first response and performs no
fetch (the transport state is unchanged), contradicting the claim's
"served from the cache if and only if GET or forceCache". -/
theorem C9_counterexample :
    fetchUrl srvEx postReqEx false (fetchUrl srvEx postReqEx true ⟨[], []⟩).2
      = ("resp0", (fetchUrl srvEx postReqEx true ⟨[], []⟩).2)
    ∧ jsToLower postReqEx.method ≠ "get"
    ∧ (fetchUrl srvEx postReqEx true ⟨[], []⟩).2.fetchLog = [postReqEx] := by
  refine ⟨?_, by decide, by decide⟩
  decide

/-- C9 (amended): on a cache miss, `fetchUrl` performs exactly one
fetch and stores the response under the (url, serialized-params) key if
and only if the method is GET (case-insensitively) or the call was made
with `forceCache` (POSTs without `forceCache` are never stored); on a
cache hit, the cached response is returned with no fetch and no cache
change — a cached key is never re-fetched or invalidated — regardless
of the current call's method or `forceCache` flag. -/
theorem C9_amended_cache_policy (srv : HttpRequest → Nat → String) (req : HttpRequest)
    (forceCache : Bool) (s : TransportState) :
    (findCachedHttp s.cache req = none →
      (fetchUrl srv req forceCache s).2.fetchLog = s.fetchLog ++ [req]
      ∧ ((fetchUrl srv req forceCache s).2.cache
            = s.cache ++ [(req, srv req s.fetchLog.length)]
          ↔ (jsToLower req.method = "get" ∨ forceCache = true))
      ∧ (¬(jsToLower req.method = "get" ∨ forceCache = true)
          → (fetchUrl srv req forceCache s).2.cache = s.cache))
    ∧ (∀ res, findCachedHttp s.cache req = some res
        → fetchUrl srv req forceCache s = (res, s)) := by
  constructor
  · intro hmiss
    rw [fetchUrl, hmiss]
    refine ⟨rfl, ?_, ?_⟩
    · by_cases hget : jsToLower req.method = "get"
      · simp [hget]
      · by_cases hfc : forceCache = true
        · simp [hget, hfc]
        · have hfc' : forceCache = false := by revert hfc; cases forceCache <;> simp
          simp [hget, hfc']
    · intro hcond
      push_neg at hcond
      obtain ⟨hget, hfc⟩ := hcond
      have hfc' : forceCache = false := by revert hfc; cases forceCache <;> simp
      simp [hget, hfc']
  · intro res hhit
    rw [fetchUrl, hhit]

/-- C9 (witness): the cache policy exercised on a concrete POST — a
miss with `forceCache = true` fetches once and stores, and a hit is
served without fetching. -/
theorem C9_amended_cache_policy_witness :
    (findCachedHttp (TransportState.mk [] []).cache postReqEx = none
      ∧ ((fetchUrl srvEx postReqEx true (TransportState.mk [] [])).2.fetchLog
          = [] ++ [postReqEx]
        ∧ ((fetchUrl srvEx postReqEx true (TransportState.mk [] [])).2.cache
              = [] ++ [(postReqEx, srvEx postReqEx (TransportState.mk [] []).fetchLog.length)]
            ↔ (jsToLower postReqEx.method = "get" ∨ true = true))
        ∧ (¬(jsToLower postReqEx.method = "get" ∨ true = true)
            → (fetchUrl srvEx postReqEx true (TransportState.mk [] [])).2.cache = [])))
    ∧ (findCachedHttp (TransportState.mk [(postReqEx, "resp0")] [postReqEx]).cache postReqEx
        = some "resp0"
      ∧ fetchUrl srvEx postReqEx false (TransportState.mk [(postReqEx, "resp0")] [postReqEx])
        = ("resp0", TransportState.mk [(postReqEx, "resp0")] [postReqEx])) :=
  ⟨⟨by decide, (C9_amended_cache_policy srvEx postReqEx true (TransportState.mk [] [])).1
      (by decide)⟩,
   ⟨by decide, (C9_amended_cache_policy srvEx postReqEx false
      (TransportState.mk [(postReqEx, "resp0")] [postReqEx])).2 "resp0" (by decide)⟩⟩

/-- C10 (confirmed): identifier-splitting divergence.  For every
environment, parameters and identifier, `handleToggle` with the AD_ID
selector first queries ads by `identifier.split(';')` while the
read-only `validate` first queries ads by `identifier.split(',')`; for
the semicolon-joined identifier `"1234;2345"`, toggle therefore
resolves the two ids `["1234", "2345"]` while validate resolves the
single malformed id `["1234;2345"]` — the two operations check
different entity sets for the same identifier. -/
theorem C10_split_divergence (env : FacadeEnv) (params : Parameters)
    (identifier : String) (evaluation : Bool) (action : AdsAction) :
    (handleToggle identifier SelectorType.AD_ID evaluation params env []).2.head?
      = some (FacadeCall.adsByIdQuery params.customerId (jsSplit identifier ';'))
    ∧ (validate identifier SelectorType.AD_ID action evaluation params env []).2.head?
      = some (FacadeCall.adsByIdQuery params.customerId (jsSplit identifier ','))
    ∧ jsSplit "1234;2345" ';' = ["1234", "2345"]
    ∧ jsSplit "1234;2345" ',' = ["1234;2345"] := by
  refine ⟨?_, ?_, by decide, by decide⟩
  · cases henv : env.adsById (jsSplit identifier ';') with
    | none =>
        simp [handleToggle, updateAdStatusById, getAdsById, FacadeM.bind, FacadeM.emit, henv]
    | some rows =>
        obtain ⟨ms, hms⟩ := updateStatuses_run
          ("customers/" ++ params.customerId ++ "/adGroupAds:mutate")
          (if evaluation then EntityStatus.ENABLED else EntityStatus.PAUSED) rows env
          [FacadeCall.adsByIdQuery params.customerId (jsSplit identifier ';')]
        simp [handleToggle, updateAdStatusById, getAdsById, FacadeM.bind, FacadeM.emit,
          henv, hms]
  · cases henv : env.adsById (jsSplit identifier ',') with
    | none => simp [validate, getAdsById, FacadeM.bind, FacadeM.emit, FacadeM.pure, henv]
    | some rows => simp [validate, getAdsById, FacadeM.bind, FacadeM.emit, FacadeM.pure, henv]

end IfThisThenAd
